import Mathlib

/-!
Verification of the MIDAS feature-aggregation / gateway services.

Shallow embedding conventions:
* Python floats are modelled as `ℚ`; machine timestamps as `Int` (UTC epoch
  seconds); Python `datetime` arithmetic becomes `Int` arithmetic in seconds.
* Fallible provider calls are modelled as `Except` values supplied in an
  environment record; the aggregator consumes them exactly where the source
  performs the network call.
* Python `None` becomes `Option.none`; Python truthiness of numbers and
  strings is modelled explicitly at each use site.
* The source file `src/services/context_api/app.py` contains, as literal
  bytes, the mojibake sequences "â€”" (for the dash) and
  "â€¦" (for the ellipsis); we embed those exact character
  sequences.
-/

namespace Midas

/-- Python's `str.strip()` on the characters of a string (whitespace removed
from both ends).  Defined on the character list so that it evaluates inside
the kernel. -/
def strip (s : String) : String :=
  ⟨((s.data.dropWhile Char.isWhitespace).reverse.dropWhile Char.isWhitespace).reverse⟩

/-- The literal dash character sequence appearing in `one_liner`. -/
def emDash : String := "â€”"

/-- The literal ellipsis character sequence appearing in `one_liner`. -/
def ellipsisMark : String := "â€¦"

/-- A headline record `{title, publisher, url, ts}` as returned by the news
providers; `ts` is the parsed UTC timestamp in epoch seconds, `none` when the
field is absent or empty. -/
structure Headline where
  title : String
  publisher : String
  url : String
  ts : Option Int
deriving DecidableEq, Repr

/-- A merged reference slot `{title, publisher, url}`. -/
structure Ref where
  title : String
  publisher : String
  url : String
deriving DecidableEq, Repr

/-- Input of the `/api/one_liner` route (`OneLinerIn` in the source). -/
structure OneLinerIn where
  class_ : String
  confidence : ℚ
  title : String
  publisher : String
  url : String
  refs : Option (List (Option Ref))
deriving DecidableEq, Repr

/-- `_strategy_phrase` from src/services/context_api/app.py. -/
def _strategy_phrase (cls : String) : String :=
  if cls = "IRON_CONDOR" then "Range-bound, IV watch"
  else if cls = "DEBIT_CALL" then "Bullish, defined risk"
  else if cls = "DEBIT_PUT" then "Bearish, defined risk"
  else if cls = "COVERED_CALL" then "Income; upside capped"
  else if cls = "NO_ACTION" then "Signal unclear"
  else "Review setup"

/-- Loop body of `_build_index_suffix`: scan slots, numbering slots that are
present and have a non-empty url, starting at `n` and skipping gaps. -/
def buildIndexGo : List (Option Ref) → Nat → List (Nat × String)
  | [], _ => []
  | none :: rest, n => buildIndexGo rest n
  | some r :: rest, n =>
      if r.url = "" then buildIndexGo rest n
      else (n, r.url) :: buildIndexGo rest (n + 1)

/-- `_build_index_suffix` from src/services/context_api/app.py: returns the
citation suffix text and the number-to-url mapping. -/
def _build_index_suffix (refs : Option (List (Option Ref))) :
    String × List (Nat × String) :=
  match refs with
  | none => ("", [])
  | some l =>
      if l = [] then ("", [])
      else
        let shown := buildIndexGo (l.take 3) 1
        if shown = [] then ("", [])
        else
          (" (" ++ String.join (shown.map (fun p => "[" ++ toString p.1 ++ "]")) ++ ")",
           shown)

/-- The string composed by `one_liner` before the 180-character clamp:
strategy phrase, source clause and citation suffix. -/
def one_liner_text (x : OneLinerIn) : String :=
  let base := strip (_strategy_phrase x.class_ ++ ". Source: " ++
    (if x.publisher = "" then "News" else x.publisher) ++ " " ++ emDash)
  base ++ (_build_index_suffix x.refs).1

/-- `one_liner` from src/services/context_api/app.py.  The source also
computes `conf_pct = int(round(confidence * 100))` but never uses it in the
response; the binding is kept here, unused, to mirror the source. -/
def one_liner (x : OneLinerIn) : String × List (Nat × String) :=
  let _conf_pct : ℚ := x.confidence * 100
  let text := one_liner_text x
  let text := if text.length > 180 then String.mk (text.data.take 177) ++ ellipsisMark
              else text
  (text, (_build_index_suffix x.refs).2)

/-! ### Gateway retry loop (src/services/gateway_api/app.py) -/

/-- The error raised when retries are exhausted (`HTTPException(502, …)`). -/
structure HttpError where
  status : Nat
  detail : String
deriving DecidableEq, Repr

/-- Retry loop shared by `_get_json` and `_post_json`: `fuel` remaining
attempts, `attempt` index of the next attempt, `lastExc` last failure text,
`delays` the sleeps performed so far (one fixed `delay` after every failed
attempt).  Returns the outcome, the total number of attempts made, and the
list of sleeps. -/
def retryGo {α : Type} (verb : String) (f : Nat → Except String α)
    (delay : ℚ) : Nat → Nat → Option String → List ℚ →
    Except HttpError α × Nat × List ℚ
  | 0, attempt, lastExc, delays =>
      (Except.error ⟨502, verb ++ " failed: " ++ lastExc.getD "None"⟩, attempt, delays)
  | fuel + 1, attempt, _lastExc, delays =>
      match f attempt with
      | Except.ok v => (Except.ok v, attempt + 1, delays)
      | Except.error e =>
          retryGo verb f delay fuel (attempt + 1) (some e) (delays ++ [delay])

/-- `_get_json` from src/services/gateway_api/app.py: the callee `f` maps the
attempt index to the outcome of that GET attempt. -/
def _get_json {α : Type} (f : Nat → Except String α) (retries : Nat) (delay : ℚ) :
    Except HttpError α × Nat × List ℚ :=
  retryGo "GET" f delay (retries + 1) 0 none []

/-- `_post_json` from src/services/gateway_api/app.py: identical loop, POST. -/
def _post_json {α : Type} (f : Nat → Except String α) (retries : Nat) (delay : ℚ) :
    Except HttpError α × Nat × List ℚ :=
  retryGo "POST" f delay (retries + 1) 0 none []

/-! ### Quote ring buffer (src/services/context_api/features.py) -/

/-- One `(timestamp, price)` sample of the quote ring. -/
structure QuoteSample where
  ts : Int
  px : ℚ
deriving DecidableEq, Repr

/-- `_note_quote`: append `(t, px)`, enforce the deque `maxlen=600` cap
(oldest-first eviction on append) and trim the front of entries older than
10 minutes (600 seconds) before `t`. -/
def _note_quote (ring : List QuoteSample) (t : Int) (px : ℚ) : List QuoteSample :=
  let r := ring ++ [⟨t, px⟩]
  let r := r.drop (r.length - 600)
  r.dropWhile (fun s => decide (s.ts < t - 600))

/-- The backward scan of `_ret_from_ring`: given the reversed ring, return
the price of the first sample (most recent first) with `ts ≤ cutoff`, or the
price of the last scanned sample (the oldest) if none qualifies. -/
def scan_base : List QuoteSample → Int → Option ℚ
  | [], _ => none
  | s :: rest, cutoff =>
      if s.ts ≤ cutoff then some s.px
      else
        match scan_base rest cutoff with
        | some b => some b
        | none => some s.px

/-- `_ret_from_ring` from src/services/context_api/features.py (`now` is
passed explicitly; `minutes` converts to seconds). -/
def _ret_from_ring (ring : List QuoteSample) (now : Int) (minutes : Int) : ℚ :=
  match ring with
  | [] => 0
  | _ :: _ =>
      let cutoff := now - minutes * 60
      match scan_base ring.reverse cutoff with
      | none => 0
      | some base =>
          if base = 0 then 0
          else ((ring.getLastD ⟨0, 0⟩).px - base) / base

/-- The spec's description of the trailing-return baseline (§4.2): the first
sample scanning from the most recent backward whose timestamp is ≤ cutoff,
or the oldest available sample if none qualifies. -/
def baseline_spec (ring : List QuoteSample) (cutoff : Int) : ℚ :=
  match ring.reverse.find? (fun s => decide (s.ts ≤ cutoff)) with
  | some s => s.px
  | none => (ring.headD ⟨0, 0⟩).px

/-! ### Indicator library

The file src/services/context_api/indicators.py is imported by features.py
but is not under src/; the three functions below are modelled from the spec
(§4.3).  Their numeric values are not load-bearing for any claim; what
matters is only that `ret_pct` and `atr_normalized` divide by a baseline
close, so a zero baseline raises `ZeroDivisionError` in Python — the
aggregator embedding routes those inputs to the failure payload explicitly
(see `div_zero_flag`). -/

/-- Modelled from the spec: `percentReturn(closes, n)` from the missing
indicators.py, `(closes[-1] − closes[-1−n]) / closes[-1−n]`. -/
def ret_pct (closes : List ℚ) (n : Nat) : ℚ :=
  let len := closes.length
  let lastC := closes.getD (len - 1) 0
  let base := closes.getD (len - 1 - n) 0
  (lastC - base) / base

/-- Modelled from the spec: one bar's true range, the max of high−low,
|high−prevClose|, |low−prevClose|. -/
def true_range (h l c0 : ℚ) : ℚ :=
  max (h - l) (max |h - c0| |l - c0|)

/-- Modelled from the spec: `normalizedATR(highs, lows, closes, period)`
from the missing indicators.py — average true range over the final `period`
bars divided by the last close. -/
def atr_normalized (highs lows closes : List ℚ) (period : Nat) : ℚ :=
  let len := closes.length
  let trs := (List.range period).map (fun j =>
    let i := len - period + j
    true_range (highs.getD i 0) (lows.getD i 0) (closes.getD (i - 1) 0))
  (trs.sum / (period : ℚ)) / closes.getD (len - 1) 0

/-- Modelled from the spec: `aboveMovingAverage20(closes)` from the missing
indicators.py — last close strictly above the mean of the last 20 closes
(or of all available closes when fewer than 20). -/
def above_sma20 (closes : List ℚ) : Bool :=
  let w := closes.drop (closes.length - 20)
  decide (closes.getD (closes.length - 1) 0 > w.sum / (w.length : ℚ))

/-! ### Feature aggregator (src/services/context_api/features.py) -/

/-- The feature mapping of a payload. -/
structure Feats where
  sent_mean : ℚ
  sent_std : ℚ
  r_1m : ℚ
  r_5m : ℚ
  above_sma20 : Bool
  mins_since_news : Int
  rv20 : ℚ
  earnings_soon : Bool
  liquidity_flag : Bool
deriving DecidableEq, Repr

/-- The quote block of a payload. -/
structure Quote where
  last : ℚ
  bid : Option ℚ
  ask : Option ℚ
  quality : String
deriving DecidableEq, Repr

/-- A `FeaturePayload` (the wall-clock `ts` string is omitted: it is
`iso_now()` at construction and carries no claim-relevant content). -/
structure Payload where
  features : Feats
  top_headline : Option Headline
  refs : List (Option Ref)
  refs_sources : List String
  error : Option String
  quote : Quote
deriving DecidableEq, Repr

/-- `_synthetic_feats` from features.py, with its literal series. -/
def _synthetic_feats : Feats :=
  let closes : List ℚ :=
    [100, 101, 102, 103, 103, 104, 105, 104, 103, 102, 103,
     104, 103, 102, 101, 100, 99, 99, 100, 101, 102]
  let highs : List ℚ :=
    [101, 102, 103, 104, 104, 105, 106, 105, 104, 103, 104,
     105, 104, 103, 102, 101, 100, 100, 101, 102, 103]
  let lows : List ℚ :=
    [99, 100, 101, 102, 102, 103, 104, 103, 102, 101, 102,
     103, 102, 101, 100, 99, 98, 98, 99, 100, 101]
  { sent_mean := 0, sent_std := 5 / 100,
    r_1m := ret_pct closes 1, r_5m := ret_pct closes 5,
    above_sma20 := above_sma20 closes,
    mins_since_news := 12,
    rv20 := min (max (atr_normalized highs lows closes 20) (2 / 100)) (80 / 100),
    earnings_soon := false, liquidity_flag := true }

/-- A Tiingo quote record; `none` models an absent field. -/
structure TiQuote where
  last : Option ℚ
  bid : Option ℚ
  ask : Option ℚ
deriving DecidableEq, Repr

/-- One OHLCV candle (the `open` field is never read by the aggregator). -/
structure Candle where
  high : ℚ
  low : ℚ
  close : ℚ
  volume : Int
deriving DecidableEq, Repr

/-- Environment of one `build_features_for` call: the mode flag, the cache
entry for the requested ticker, the outcome each provider call would have,
the current time, and the quote ring for the ticker.  `earn` is the signed
number of days from today (UTC date) to the fetched earnings date. -/
structure BFEnv where
  live : Bool
  cached : Option Payload
  fhRes : Except String (List Headline)
  yhRes : Except String (List Headline)
  sent : Option (ℚ × ℚ)
  quoteTi : Except String TiQuote
  candlesRes : Except String (List Candle)
  quoteFh : Except Unit (Option ℚ)
  earn : Except Unit (Option Int)
  now : Int
  ring : List QuoteSample
deriving Repr

/-- Result of one `build_features_for` call: the returned payload, the cache
entry for the ticker after the call, the ring after the call, the provider
calls attempted, and the number of cache reads/writes performed. -/
structure BFOut where
  payload : Payload
  cacheEntry : Option Payload
  ring : List QuoteSample
  providerCalls : List String
  cacheReads : Nat
  cacheWrites : Nat
deriving Repr

/-- Loop body of `_merge_refs`: skip entries without a (stripped) title and
url, de-duplicate by url, stop once 3 refs are accumulated. -/
def merge_refs_go : List Headline → List String → List Ref → List Ref
  | [], _, out => out
  | h :: rest, seen, out =>
      if out.length ≥ 3 then out
      else if strip h.title = "" ∨ strip h.url = "" then merge_refs_go rest seen out
      else if strip h.url ∈ seen then merge_refs_go rest seen out
      else
        merge_refs_go rest (strip h.url :: seen)
          (out ++ [⟨strip h.title,
                    if strip h.publisher = "" then "News" else strip h.publisher,
                    strip h.url⟩])

/-- `_merge_refs` from features.py (the unused `ticker` argument dropped). -/
def _merge_refs (fn yh : List Headline) : List Ref :=
  merge_refs_go (fn ++ yh) [] []

/-- The url a headline contributes to the merge, when it has both a
non-empty stripped title and a non-empty stripped url. -/
def valid_url (h : Headline) : Option String :=
  if strip h.title = "" ∨ strip h.url = "" then none else some (strip h.url)

/-- The titles `_sent_from_headlines` would POST to the sentiment service:
entries with a truthy raw title, stripped, then non-empty ones kept. -/
def sent_titles (headlines : List Headline) : List String :=
  ((headlines.filter (fun h => h.title != "")).map (fun h => strip h.title)).filter
    (fun t => t != "")

/-- `_sent_from_headlines` from features.py: `(0, 0.05)` when there are no
usable titles or on any service failure, otherwise the service's reply. -/
def _sent_from_headlines (svc : Option (ℚ × ℚ)) (headlines : List Headline) :
    ℚ × ℚ :=
  match sent_titles headlines with
  | [] => (0, 5 / 100)
  | _ :: _ =>
      match svc with
      | some ms => ms
      | none => (0, 5 / 100)

/-- The headline pool passed to `_sent_from_headlines` (line 149): the first
3 finnhub headlines when that list is non-empty, else the first 3 yahoo
headlines. -/
def sent_pool (fh yh : List Headline) : List Headline :=
  if fh.take 3 ≠ [] then fh.take 3 else yh.take 3

/-- Diagnostic accumulation of the headline stage (lines 127–134). -/
def head_error (fhRes yhRes : Except String (List Headline)) : Option String :=
  let e1 : Option String :=
    match fhRes with
    | Except.error e => some ("news: " ++ e)
    | Except.ok _ => none
  match yhRes with
  | Except.error e =>
      some ((match e1 with
             | some s => s ++ "; yahoo: "
             | none => "yahoo: ") ++ e)
  | Except.ok _ => e1

/-- `top_headline` selection (lines 137–140). -/
def top_headline_of (fh yh : List Headline) : Option Headline :=
  match fh with
  | h :: _ => some h
  | [] =>
      match yh with
      | h :: _ => some h
      | [] => none

/-- The merged refs padded to length 3 with `None` (lines 142–146). -/
def padded_refs (fn yh : List Headline) : List (Option Ref) :=
  let r := _merge_refs fn yh
  r.map some ++ List.replicate (3 - r.length) none

/-- The parsed timestamps of all headlines carrying one (line 186–187). -/
def news_pool (fh yh : List Headline) : List Int :=
  (fh ++ yh).filterMap (fun h => h.ts)

/-- `mins_since_news` (lines 183–191): 9999 sentinel when no timestamp is
known, else floor-divided minutes since the latest headline; then `min` with
240. -/
def mins_since_news_of (now : Int) (fh yh : List Headline) : Int :=
  let m0 : Int :=
    match news_pool fh yh with
    | [] => 9999
    | t :: ts => Int.fdiv (now - ts.foldl max t) 60
  min m0 240

/-- `bid_disp` before the spread fallback (line 159): Python
`float(q.get("bid") or 0.0) or None` — absent or zero collapses to `None`. -/
def bid_disp0 (q : TiQuote) : Option ℚ :=
  match q.bid with
  | none => none
  | some b => if b = 0 then none else some b

/-- `ask_disp` before the spread fallback (line 160). -/
def ask_disp0 (q : TiQuote) : Option ℚ :=
  match q.ask with
  | none => none
  | some a => if a = 0 then none else some a

/-- `last_px` after the candle-close fallback (lines 155–157). -/
def last_px_candles (q : TiQuote) (candles : List Candle) : ℚ :=
  let l0 := q.last.getD 0
  if l0 = 0 ∧ candles ≠ [] then (candles.getLastD ⟨0, 0, 0, 0⟩).close else l0

/-- The provisional quality tag (line 161). -/
def quality0 (q : TiQuote) (candles : List Candle) : String :=
  if (bid_disp0 q).isSome ∧ (ask_disp0 q).isSome ∧ last_px_candles q candles > 0
  then "real" else "unknown"

/-- `last_px` after the Finnhub fallback and the 1.0 sentinel
(lines 164–171). -/
def last_px_final (q : TiQuote) (candles : List Candle)
    (quoteFh : Except Unit (Option ℚ)) : ℚ :=
  let l1 := last_px_candles q candles
  let l2 :=
    if l1 ≤ 0 then
      match quoteFh with
      | Except.ok (some v) => if v ≠ 0 then v else l1
      | _ => l1
    else l1
  if l2 ≤ 0 then 1 else l2

/-- The condition of line 176: bid or ask missing, or an inverted spread. -/
def need_synth (q : TiQuote) : Bool :=
  (bid_disp0 q).isNone || (ask_disp0 q).isNone ||
    (match bid_disp0 q, ask_disp0 q with
     | some b, some a => decide (a ≤ b)
     | _, _ => false)

/-- Final displayed bid/ask and quality (lines 159–181): either the observed
pair, or an 8-basis-point synthetic spread around `last` with quality
downgraded to "estimated". -/
def final_bid_ask_quality (q : TiQuote) (candles : List Candle)
    (quoteFh : Except Unit (Option ℚ)) : Option ℚ × Option ℚ × String :=
  if need_synth q then
    let lastPx := last_px_final q candles quoteFh
    let half := 8 / 10000 * lastPx * (1 / 2)
    (some (lastPx - half), some (lastPx + half), "estimated")
  else (bid_disp0 q, ask_disp0 q, quality0 q candles)

/-- The inputs on which the Python returns/rv20 block (lines 194–216) would
raise `ZeroDivisionError`: with ≥ 2 candles, a zero close at index −2
(ret_pct base for r_1m), at index −6 when r_5m uses candles, or at index −1
(the normalizedATR divisor).  Python's exception routes the request to the
generic failure payload, so the embedding tests this flag explicitly. -/
def div_zero_flag (candles : List Candle) : Bool :=
  if candles.length ≥ 2 then
    let closes := candles.map (fun c => c.close)
    decide (closes.getD (closes.length - 2) 0 = 0) ||
      (decide (closes.length ≥ 6) && decide (closes.getD (closes.length - 6) 0 = 0)) ||
      decide (closes.getD (closes.length - 1) 0 = 0)
  else false

/-- Returns, rv20 (pre-clamp) and the above-SMA flag (lines 193–216), given
the ring already updated by `_note_quote`. -/
def returns_block (candles : List Candle) (ring1 : List QuoteSample)
    (now : Int) (lastPx : ℚ) : ℚ × ℚ × ℚ × Bool :=
  if candles.length ≥ 2 then
    let closes := candles.map (fun c => c.close)
    let highs := candles.map (fun c => c.high)
    let lows := candles.map (fun c => c.low)
    let r1 := ret_pct closes 1
    let r5 := if closes.length ≥ 6 then ret_pct closes 5
              else _ret_from_ring ring1 now 5
    let series0 := closes.drop (closes.length - 120)
    let padVal := series0.getLastD lastPx
    let series := if series0.length < 21
                  then series0 ++ List.replicate (21 - series0.length) padVal
                  else series0
    let hseg := highs.drop (highs.length - series.length)
    let lseg := lows.drop (lows.length - series.length)
    let rv := atr_normalized hseg lseg series 20
    let above := decide (series.getD (series.length - 1) 0 >
      (series.drop (series.length - 20)).sum / 20)
    (r1, r5, rv, above)
  else
    (_ret_from_ring ring1 now 1, _ret_from_ring ring1 now 5,
     atr_normalized (List.replicate 21 lastPx) (List.replicate 21 lastPx)
       (List.replicate 21 lastPx) 20,
     false)

/-- `earnings_soon` (lines 220–229): the earnings date falls within
[0, 14] days of today; any `FHError` leaves it false. -/
def earnings_soon_of (earn : Except Unit (Option Int)) : Bool :=
  match earn with
  | Except.ok (some d) => decide (0 ≤ d ∧ d ≤ 14)
  | _ => false

/-- The payload returned in non-live mode (lines 110–121). -/
def non_live_payload : Payload :=
  { features := _synthetic_feats, top_headline := none, refs := [],
    refs_sources := [], error := none,
    quote := ⟨0, none, none, "unknown"⟩ }

/-- The synthetic payload of the failure path (lines 264–272). -/
def failure_payload (error : Option String) (top : Option Headline) : Payload :=
  { features := _synthetic_feats, top_headline := top, refs := [],
    refs_sources := [], error := error,
    quote := ⟨0, none, none, "unknown"⟩ }

/-- The provider calls performed before the quote stage: both headline
providers, then the sentiment service when there are titles to score. -/
def calls_before_quote (env : BFEnv) : List String :=
  let fh := env.fhRes.toOption.getD []
  let yh := env.yhRes.toOption.getD []
  ["finnhub_headlines", "yahoo_headlines"] ++
    (if sent_titles (sent_pool fh yh) ≠ [] then ["sentiment"] else []) ++
    ["tiingo_quote"]

/-- The payload of the live success path (lines 237–255), given the ok
results of the Tiingo quote and candle calls. -/
def success_payload (env : BFEnv) (qt : TiQuote) (candles : List Candle) : Payload :=
  let fh := env.fhRes.toOption.getD []
  let yh := env.yhRes.toOption.getD []
  let sentPair := _sent_from_headlines env.sent (sent_pool fh yh)
  let lastPx := last_px_final qt candles env.quoteFh
  let ring1 := _note_quote env.ring env.now lastPx
  let baq := final_bid_ask_quality qt candles env.quoteFh
  let rb := returns_block candles ring1 env.now lastPx
  let spreadBps := if lastPx ≠ 0
    then |baq.2.1.getD 0 - baq.1.getD 0| / lastPx * 10000
    else 9999
  let vol1 : Int := match candles.getLast? with
    | some c => c.volume
    | none => 0
  let vol5 : Int := ((candles.drop (candles.length - 5)).map
    (fun c => c.volume)).sum
  { features :=
      { sent_mean := sentPair.1, sent_std := sentPair.2,
        r_1m := rb.1, r_5m := rb.2.1,
        above_sma20 := rb.2.2.2,
        mins_since_news := mins_since_news_of env.now fh yh,
        rv20 := min (max rb.2.2.1 (2 / 100)) (80 / 100),
        earnings_soon := earnings_soon_of env.earn,
        liquidity_flag := decide (spreadBps ≤ 30) || decide (vol1 ≥ 1000) ||
          decide (vol5 ≥ 5000) },
    top_headline := top_headline_of fh yh,
    refs := padded_refs fh yh,
    refs_sources := (_merge_refs fh yh).map (fun r => r.publisher),
    error := head_error env.fhRes env.yhRes,
    quote := ⟨lastPx, baq.1, baq.2.1, baq.2.2⟩ }

/-- The live aggregation body (the `try:` block, lines 123–274), reached in
live mode on a cache miss. -/
def build_features_live (env : BFEnv) : BFOut :=
  let fh := env.fhRes.toOption.getD []
  let yh := env.yhRes.toOption.getD []
  let top := top_headline_of fh yh
  match env.quoteTi with
  | Except.error e =>
      let payload := failure_payload (some ("tiingo: " ++ e)) top
      { payload := payload, cacheEntry := some payload, ring := env.ring,
        providerCalls := calls_before_quote env, cacheReads := 1, cacheWrites := 1 }
  | Except.ok qt =>
      match env.candlesRes with
      | Except.error e =>
          let payload := failure_payload (some ("tiingo: " ++ e)) top
          { payload := payload, cacheEntry := some payload, ring := env.ring,
            providerCalls := calls_before_quote env ++ ["tiingo_candles"],
            cacheReads := 1, cacheWrites := 1 }
      | Except.ok candles =>
          let lastPx := last_px_final qt candles env.quoteFh
          let ring1 := _note_quote env.ring env.now lastPx
          let callsQ := calls_before_quote env ++ ["tiingo_candles"] ++
            (if last_px_candles qt candles ≤ 0 then ["finnhub_quote"] else [])
          if div_zero_flag candles then
            let payload := failure_payload
              (some "providers failed: ZeroDivisionError") top
            { payload := payload, cacheEntry := some payload, ring := ring1,
              providerCalls := callsQ, cacheReads := 1, cacheWrites := 1 }
          else
            { payload := success_payload env qt candles,
              cacheEntry := some (success_payload env qt candles), ring := ring1,
              providerCalls := callsQ ++ ["finnhub_earnings"],
              cacheReads := 1, cacheWrites := 1 }

/-- `build_features_for` from features.py: live mode checks the cache and
short-circuits on a hit; non-live mode returns the synthetic payload with no
provider call and no cache interaction. -/
def build_features_for (env : BFEnv) : BFOut :=
  if env.live then
    match env.cached with
    | some c =>
        { payload := c, cacheEntry := env.cached, ring := env.ring,
          providerCalls := [], cacheReads := 1, cacheWrites := 0 }
    | none => build_features_live env
  else
    { payload := non_live_payload, cacheEntry := env.cached, ring := env.ring,
      providerCalls := [], cacheReads := 0, cacheWrites := 0 }

/-! ### Auxiliary definitions used by the theorem statements -/

/-- The number of non-empty slots of a padded refs list. -/
def count_some {α : Type} (l : List (Option α)) : Nat := (l.filterMap id).length

/-- The urls the merge would newly accept from `l` given the already seen
set: valid (title and url both non-empty after stripping), first occurrence
per url.  Counting device for the `_merge_refs` cap lemma. -/
def new_urls : List Headline → List String → List String
  | [], _ => []
  | h :: rest, seen =>
      match valid_url h with
      | none => new_urls rest seen
      | some u => if u ∈ seen then new_urls rest seen else u :: new_urls rest (u :: seen)

/-- The url of a present one-liner ref slot with a non-empty url. -/
def present_url : Option Ref → Option String
  | some r => if r.url = "" then none else some r.url
  | none => none

/-- A sequence of `_note_quote` appends applied to an empty ring. -/
def apply_quotes (l : List (Int × ℚ)) : List QuoteSample :=
  l.foldl (fun r a => _note_quote r a.1 a.2) []

/-! ### Concrete inputs for witnesses and counterexamples -/

/-- The one-liner scenario of the spec (§8): IRON_CONDOR, 0.73, Reuters,
refs `[{url:"https://a"}, None, {url:"https://b"}]`. -/
def scenario_input : OneLinerIn :=
  { class_ := "IRON_CONDOR", confidence := 73 / 100, title := "",
    publisher := "Reuters", url := "",
    refs := some [some ⟨"", "", "https://a"⟩, none, some ⟨"", "", "https://b"⟩] }

/-- A publisher long enough that the 177-character cut ends on a space. -/
def long_publisher : String :=
  String.mk (List.replicate 154 'a') ++ " " ++ String.mk (List.replicate 20 'b')

/-- One-liner input whose composed text exceeds 180 characters with a space
at index 176. -/
def truncation_input : OneLinerIn :=
  { class_ := "X", confidence := 0, title := "", publisher := long_publisher,
    url := "", refs := none }

/-- Two one-liner inputs agreeing on class, publisher and refs but differing
in confidence, title and url. -/
def indep_input_a : OneLinerIn :=
  { class_ := "DEBIT_CALL", confidence := 1 / 2, title := "t1", publisher := "P",
    url := "u1", refs := some [none, some ⟨"x", "y", "https://z"⟩] }

/-- Companion of `indep_input_a` with different confidence, title and url. -/
def indep_input_b : OneLinerIn :=
  { class_ := "DEBIT_CALL", confidence := 9 / 10, title := "zz", publisher := "P",
    url := "q", refs := some [none, some ⟨"x", "y", "https://z"⟩] }

/-- A non-live environment with an empty cache. -/
def env_non_live : BFEnv :=
  { live := false, cached := none,
    fhRes := Except.ok [], yhRes := Except.ok [],
    sent := none, quoteTi := Except.error "down", candlesRes := Except.error "down",
    quoteFh := Except.error (), earn := Except.error (),
    now := 0, ring := [] }

/-- A live environment on a cache miss whose providers succeed, with one
finnhub headline carrying a past timestamp. -/
def env_live_ok : BFEnv :=
  { live := true, cached := none,
    fhRes := Except.ok [⟨"T", "P", "https://u", some 400⟩],
    yhRes := Except.ok [],
    sent := none,
    quoteTi := Except.ok ⟨some 10, some 10, some 11⟩,
    candlesRes := Except.ok [],
    quoteFh := Except.error (), earn := Except.error (),
    now := 1000, ring := [] }

/-- As `env_live_ok` but the single headline is dated one hour in the
future (ts = now + 3600). -/
def env_future_news : BFEnv :=
  { live := true, cached := none,
    fhRes := Except.ok [⟨"T", "P", "https://u", some 4600⟩],
    yhRes := Except.ok [],
    sent := none,
    quoteTi := Except.ok ⟨some 10, some 10, some 11⟩,
    candlesRes := Except.ok [],
    quoteFh := Except.error (), earn := Except.error (),
    now := 1000, ring := [] }

/-- A live environment where Tiingo reports a valid spread (bid 10 < ask 11)
but no last price, there are no candles, and the Finnhub quote fallback
fails: the payload keeps quality "unknown" while carrying the observed
spread. -/
def env_no_last : BFEnv :=
  { live := true, cached := none,
    fhRes := Except.ok [], yhRes := Except.ok [],
    sent := none,
    quoteTi := Except.ok ⟨none, some 10, some 11⟩,
    candlesRes := Except.ok [],
    quoteFh := Except.error (), earn := Except.error (),
    now := 1000, ring := [] }

/-- A live environment whose Tiingo quote call fails (total failure). -/
def env_total_failure : BFEnv :=
  { live := true, cached := none,
    fhRes := Except.ok [], yhRes := Except.ok [],
    sent := none,
    quoteTi := Except.error "timeout", candlesRes := Except.error "timeout",
    quoteFh := Except.error (), earn := Except.error (),
    now := 1000, ring := [] }

/-- A gateway callee failing on attempts 0 and 1 and succeeding on 2. -/
def stub_fail_twice : Nat → Except String Nat :=
  fun i => if i < 2 then Except.error "boom" else Except.ok 42

/-- A gateway callee that always fails. -/
def stub_always_fail : Nat → Except String Nat :=
  fun _ => Except.error "boom"

/-- A monotone sequence of ring appends spanning 15 minutes (900 s). -/
def ring_appends : List (Int × ℚ) :=
  [(0, 1), (300, 2), (600, 3), (900, 4)]

/-- A concrete two-sample ring with `now = 1000`. -/
def ring_two : List QuoteSample := [⟨200, 4⟩, ⟨900, 6⟩]

/-! ## Theorems -/

/-! ### One-liner composer -/

theorem buildIndexGo_numbering (l : List (Option Ref)) (n : Nat) :
    (buildIndexGo l n).map Prod.fst = List.range' n (buildIndexGo l n).length ∧
    (buildIndexGo l n).map Prod.snd = l.filterMap present_url := by
  induction l generalizing n with
  | nil => simp [buildIndexGo]
  | cons a rest ih =>
      cases a with
      | none => simpa [buildIndexGo, present_url] using ih n
      | some r =>
          by_cases hu : r.url = ""
          · simpa [buildIndexGo, present_url, hu] using ih n
          · have h' := ih (n + 1)
            simp [buildIndexGo, present_url, hu, h'.1, h'.2, List.range'_succ]

/-- C10: the one-liner response depends only on the classification label,
the publisher and the refs slots; confidence, title and url never influence
the returned text or refs numbering. -/
theorem c10_one_liner_noninterference (x y : OneLinerIn)
    (hc : x.class_ = y.class_) (hp : x.publisher = y.publisher)
    (hr : x.refs = y.refs) : one_liner x = one_liner y := by
  cases x
  cases y
  simp only at hc hp hr
  simp [one_liner, one_liner_text, hc, hp, hr]

/-- Witness for C10 at two concrete inputs differing in confidence, title
and url. -/
theorem c10_one_liner_noninterference_witness :
    one_liner indep_input_a = one_liner indep_input_b :=
  c10_one_liner_noninterference indep_input_a indep_input_b rfl rfl rfl

/-- C5 (amended): on the spec's scenario the text is
"Range-bound, IV watch. Source: Reuters â€” ([1][2])" — the
source's literal dash characters and a space before the citation parens —
with refs numbers 1→https://a, 2→https://b; and in general the numbering is
dense over present refs: the produced numbers are 1, 2, … in slot order,
skipping empty slots, paired with exactly the urls of the present slots
among the first three. -/
theorem c5_one_liner_scenario :
    (one_liner scenario_input).1 =
      "Range-bound, IV watch. Source: Reuters â€” ([1][2])" ∧
    (one_liner scenario_input).2 = [(1, "https://a"), (2, "https://b")] ∧
    (∀ refs : List (Option Ref),
      (_build_index_suffix (some refs)).2.map Prod.fst =
        List.range' 1 ((_build_index_suffix (some refs)).2).length ∧
      (_build_index_suffix (some refs)).2.map Prod.snd =
        (refs.take 3).filterMap present_url) := by
  refine ⟨by decide, by decide, ?_⟩
  intro refs
  by_cases h0 : refs = []
  · simp [_build_index_suffix, h0]
  · have h := buildIndexGo_numbering (refs.take 3) 1
    by_cases hsh : buildIndexGo (refs.take 3) 1 = []
    · have : (refs.take 3).filterMap present_url = [] := by
        rw [← h.2, hsh]
        simp
      simp [_build_index_suffix, h0, hsh, this]
    · simp [_build_index_suffix, h0, hsh, h.1, h.2]

/-- C5 counterexample: the claimed prefix
"Range-bound, IV watch. Source: Reuters —([1][2])" (with no space before
the parens) is not a prefix of the text the service actually returns on the
scenario input. -/
theorem c5_counterexample :
    ("Range-bound, IV watch. Source: Reuters —([1][2])".data.isPrefixOf
      (one_liner scenario_input).1.data) = false := by decide

/-- C6 (amended): the one-liner text never exceeds 180 characters, and
whenever the composed string is longer than 180 characters the returned
text is exactly its first 177 characters followed by one ellipsis marker —
but trailing whitespace before the marker is not removed. -/
theorem c6_one_liner_truncation (x : OneLinerIn) :
    (one_liner x).1.length ≤ 180 ∧
    (180 < (one_liner_text x).length →
      (one_liner x).1 = String.mk ((one_liner_text x).data.take 177) ++ ellipsisMark) := by
  constructor
  · by_cases h : (one_liner_text x).length > 180
    · have hd : 180 < (one_liner_text x).data.length := h
      have hl : (String.mk ((one_liner_text x).data.take 177)).length = 177 := by
        show ((one_liner_text x).data.take 177).length = 177
        rw [List.length_take]
        omega
      simp only [one_liner, h, if_true]
      rw [String.length_append, hl]
      decide
    · simp only [one_liner, h, if_false]
      omega
  · intro h
    simp [one_liner, h]

set_option maxRecDepth 8000 in
/-- Witness for C6 at a concrete input requiring truncation. -/
theorem c6_one_liner_truncation_witness :
    (one_liner truncation_input).1.length ≤ 180 ∧
    (one_liner truncation_input).1 =
      String.mk ((one_liner_text truncation_input).data.take 177) ++ ellipsisMark :=
  ⟨(c6_one_liner_truncation truncation_input).1,
   (c6_one_liner_truncation truncation_input).2 (by decide)⟩

set_option maxRecDepth 8000 in
/-- C6 counterexample: on `truncation_input` truncation occurs and the
character immediately before the ellipsis marker is a space, so the claim's
"no trailing whitespace before the ellipsis" fails. -/
theorem c6_counterexample :
    180 < (one_liner_text truncation_input).length ∧
    ((one_liner truncation_input).1.data.take 177).getLast? = some ' ' ∧
    (one_liner truncation_input).1.data.drop 177 = ellipsisMark.data := by
  refine ⟨by decide, by decide, by decide⟩

/-! ### Gateway retries -/

theorem retryGo_all_fail {α : Type} (verb : String) (g : Nat → Except String α)
    (d : ℚ) :
    ∀ fuel attempt lastExc delays,
      (∀ i, attempt ≤ i → i < attempt + fuel → ∃ e, g i = Except.error e) →
      ∃ s, retryGo verb g d fuel attempt lastExc delays =
        (Except.error ⟨502, s⟩, attempt + fuel, delays ++ List.replicate fuel d) := by
  intro fuel
  induction fuel with
  | zero =>
      intro attempt lastExc delays _
      exact ⟨verb ++ " failed: " ++ lastExc.getD "None", by simp [retryGo]⟩
  | succ n ih =>
      intro attempt lastExc delays h
      obtain ⟨e, he⟩ := h attempt (le_refl _) (by omega)
      obtain ⟨s, hs⟩ := ih (attempt + 1) (some e) (delays ++ [d])
        (fun i h1 h2 => h i (by omega) (by omega))
      refine ⟨s, ?_⟩
      rw [retryGo, he]
      show retryGo verb g d n (attempt + 1) (some e) (delays ++ [d]) = _
      rw [hs]
      have h1 : attempt + 1 + n = attempt + (n + 1) := by omega
      have h2 : delays ++ [d] ++ List.replicate n d =
          delays ++ List.replicate (n + 1) d := by
        rw [List.replicate_succ, List.append_assoc]
        rfl
      rw [h1, h2]

theorem retryGo_succeeds {α : Type} (verb : String) (f : Nat → Except String α)
    (d : ℚ) (v : α) :
    ∀ fuel attempt lastExc delays k, attempt ≤ k → k < attempt + fuel →
      (∀ i, attempt ≤ i → i < k → ∃ e, f i = Except.error e) →
      f k = Except.ok v →
      retryGo verb f d fuel attempt lastExc delays =
        (Except.ok v, k + 1, delays ++ List.replicate (k - attempt) d) := by
  intro fuel
  induction fuel with
  | zero => intro attempt lastExc delays k h1 h2 _ _; omega
  | succ n ih =>
      intro attempt lastExc delays k h1 h2 herr hok
      by_cases hak : attempt = k
      · subst hak
        rw [retryGo, hok]
        simp
      · obtain ⟨e, he⟩ := herr attempt (le_refl _) (by omega)
        rw [retryGo, he]
        show retryGo verb f d n (attempt + 1) (some e) (delays ++ [d]) = _
        rw [ih (attempt + 1) (some e) (delays ++ [d]) k (by omega) (by omega)
            (fun i hi1 hi2 => herr i (by omega) hi2) hok]
        have h3 : k - attempt = (k - (attempt + 1)) + 1 := by omega
        rw [h3, List.replicate_succ, List.append_assoc]
        rfl

/-- C3: both gateway network calls retry identically: a callee that fails
twice then succeeds returns the success after exactly 3 attempts when
retries = 2; a callee that always fails produces an HTTP 502 upstream
failure after exactly retries + 1 attempts; every inter-attempt delay is
the same fixed value (no backoff growth). -/
theorem c3_gateway_retry {α : Type} (f g : Nat → Except String α) (v : α)
    (retries : Nat) (d : ℚ)
    (hf : ∀ i, i < 2 → ∃ e, f i = Except.error e) (hs : f 2 = Except.ok v)
    (hg : ∀ i, ∃ e, g i = Except.error e) :
    _get_json f 2 d = (Except.ok v, 3, List.replicate 2 d) ∧
    _post_json f 2 d = (Except.ok v, 3, List.replicate 2 d) ∧
    (∃ s, _get_json g retries d =
      (Except.error ⟨502, s⟩, retries + 1, List.replicate (retries + 1) d)) ∧
    (∃ s, _post_json g retries d =
      (Except.error ⟨502, s⟩, retries + 1, List.replicate (retries + 1) d)) := by
  have hsucc : ∀ verb, retryGo verb f d 3 0 none [] =
      (Except.ok v, 3, List.replicate 2 d) := by
    intro verb
    have := retryGo_succeeds verb f d v 3 0 none [] 2 (by omega) (by omega)
      (fun i h1 h2 => hf i h2) hs
    simpa using this
  have hfail : ∀ verb, ∃ s, retryGo verb g d (retries + 1) 0 none [] =
      (Except.error ⟨502, s⟩, retries + 1, List.replicate (retries + 1) d) := by
    intro verb
    have := retryGo_all_fail verb g d (retries + 1) 0 none []
      (fun i _ _ => hg i)
    simpa using this
  exact ⟨hsucc "GET", hsucc "POST", hfail "GET", hfail "POST"⟩

/-- Witness for C3 at concrete stubs. -/
theorem c3_gateway_retry_witness :
    _get_json stub_fail_twice 2 (1 / 4) =
      (Except.ok 42, 3, List.replicate 2 ((1 : ℚ) / 4)) ∧
    _post_json stub_fail_twice 2 (1 / 4) =
      (Except.ok 42, 3, List.replicate 2 ((1 : ℚ) / 4)) ∧
    (∃ s, _get_json stub_always_fail 2 (1 / 4) =
      (Except.error ⟨502, s⟩, 3, List.replicate 3 ((1 : ℚ) / 4))) ∧
    (∃ s, _post_json stub_always_fail 2 (1 / 4) =
      (Except.error ⟨502, s⟩, 3, List.replicate 3 ((1 : ℚ) / 4))) :=
  c3_gateway_retry stub_fail_twice stub_always_fail 42 2 (1 / 4)
    (fun i hi => ⟨"boom", by simp [stub_fail_twice, hi]⟩)
    (by simp [stub_fail_twice])
    (fun i => ⟨"boom", rfl⟩)

/-! ### Quote ring buffer -/

theorem dropWhile_ts_ge_of_sorted (c : Int) :
    ∀ l : List QuoteSample, List.Pairwise (fun a b => a.ts ≤ b.ts) l →
      ∀ s ∈ l.dropWhile (fun s => decide (s.ts < c)), c ≤ s.ts := by
  intro l
  induction l with
  | nil => simp
  | cons a tl ih =>
      intro hp s hs
      rw [List.dropWhile_cons] at hs
      by_cases hc : a.ts < c
      · simp only [hc, decide_eq_true_eq, if_pos] at hs
        exact ih (List.pairwise_cons.mp hp).2 s hs
      · simp only [hc, decide_eq_true_eq, if_neg] at hs
        rcases List.mem_cons.mp hs with h | h
        · subst h; omega
        · have := (List.pairwise_cons.mp hp).1 s h
          omega

theorem note_quote_props (ring : List QuoteSample) (t : Int) (px : ℚ)
    (hs : List.Pairwise (fun a b => a.ts ≤ b.ts) ring)
    (hb : ∀ s ∈ ring, s.ts ≤ t) :
    List.Pairwise (fun a b => a.ts ≤ b.ts) (_note_quote ring t px) ∧
    (∀ s ∈ _note_quote ring t px, s.ts ≤ t) ∧
    (_note_quote ring t px).length ≤ 600 ∧
    (∀ s ∈ _note_quote ring t px, t - 600 ≤ s.ts) := by
  have hdef : _note_quote ring t px =
      ((ring ++ [QuoteSample.mk t px]).drop
        ((ring ++ [QuoteSample.mk t px]).length - 600)).dropWhile
        (fun s => decide (s.ts < t - 600)) := rfl
  have hs1 : List.Pairwise (fun a b => a.ts ≤ b.ts) (ring ++ [QuoteSample.mk t px]) := by
    rw [List.pairwise_append]
    refine ⟨hs, List.pairwise_singleton _ _, ?_⟩
    intro a ha b hbm
    rw [List.mem_singleton] at hbm
    subst hbm
    exact hb a ha
  have hb1 : ∀ s ∈ ring ++ [QuoteSample.mk t px], s.ts ≤ t := by
    intro s hsm
    rcases List.mem_append.mp hsm with h | h
    · exact hb s h
    · rw [List.mem_singleton] at h; subst h; exact le_refl _
  have hsub2 : ((ring ++ [QuoteSample.mk t px]).drop ((ring ++ [QuoteSample.mk t px]).length - 600)).Sublist
      (ring ++ [QuoteSample.mk t px]) := List.drop_sublist _ _
  have hs2 := List.Pairwise.sublist hsub2 hs1
  have hsub3 : (_note_quote ring t px).Sublist
      ((ring ++ [QuoteSample.mk t px]).drop ((ring ++ [QuoteSample.mk t px]).length - 600)) := by
    rw [hdef]; exact List.dropWhile_sublist _
  refine ⟨List.Pairwise.sublist hsub3 hs2, ?_, ?_, ?_⟩
  · intro s hsm
    exact hb1 s (hsub2.subset (hsub3.subset hsm))
  · have h1 := hsub3.length_le
    rw [List.length_drop] at h1
    omega
  · intro s hsm
    rw [hdef] at hsm
    exact dropWhile_ts_ge_of_sorted (t - 600) _ hs2 s hsm

theorem apply_quotes_aux :
    ∀ (l : List (Int × ℚ)) (r : List QuoteSample) (t0 : Int),
      List.Pairwise (fun a b => a.ts ≤ b.ts) r → (∀ s ∈ r, s.ts ≤ t0) →
      List.Chain (fun a b => a ≤ b) t0 (l.map Prod.fst) →
      (List.Pairwise (fun a b => a.ts ≤ b.ts)
          (l.foldl (fun r a => _note_quote r a.1 a.2) r) ∧
        (∀ s ∈ l.foldl (fun r a => _note_quote r a.1 a.2) r,
          s.ts ≤ (l.map Prod.fst).getLastD t0)) ∧
      (l ≠ [] →
        (l.foldl (fun r a => _note_quote r a.1 a.2) r).length ≤ 600 ∧
        (∀ s ∈ l.foldl (fun r a => _note_quote r a.1 a.2) r,
          (l.map Prod.fst).getLastD t0 - 600 ≤ s.ts)) := by
  intro l
  induction l with
  | nil =>
      intro r t0 hs hb _
      exact ⟨⟨hs, hb⟩, by simp⟩
  | cons a rest ih =>
      intro r t0 hs hb hc
      rw [List.map_cons, List.chain_cons] at hc
      have hb' : ∀ s ∈ r, s.ts ≤ a.1 := fun s hsm => le_trans (hb s hsm) hc.1
      have np := note_quote_props r a.1 a.2 hs hb'
      have ihr := ih (_note_quote r a.1 a.2) a.1 np.1 np.2.1 hc.2
      have hfold : (a :: rest).foldl (fun r a => _note_quote r a.1 a.2) r =
          rest.foldl (fun r a => _note_quote r a.1 a.2) (_note_quote r a.1 a.2) :=
        List.foldl_cons _ _
      have hlast : ((a :: rest).map Prod.fst).getLastD t0 =
          (rest.map Prod.fst).getLastD a.1 := by
        rw [List.map_cons, List.getLastD_cons]
      constructor
      · rw [hfold, hlast]
        exact ihr.1
      · intro _
        rw [hfold, hlast]
        cases rest with
        | nil =>
            simp only [List.foldl_nil, List.map_nil, List.getLastD_nil]
            exact ⟨np.2.2.1, np.2.2.2⟩
        | cons b rest' => exact ihr.2 (by simp)

/-- C7: after any non-empty monotone sequence of appends into an empty
ring, the ring holds at most 600 samples and no retained sample is older
than 10 minutes (600 s) before the latest append time. -/
theorem c7_ring_bounds (l : List (Int × ℚ)) (hne : l ≠ [])
    (hmono : l.Chain' (fun a b => a.1 ≤ b.1)) :
    (apply_quotes l).length ≤ 600 ∧
    ∀ s ∈ apply_quotes l, (l.map Prod.fst).getLastD 0 - 600 ≤ s.ts := by
  cases l with
  | nil => exact absurd rfl hne
  | cons a rest =>
      have hch : List.Chain (fun a b => a ≤ b) a.1 ((a :: rest).map Prod.fst) := by
        rw [List.map_cons, List.chain_cons]
        exact ⟨le_refl _, (List.chain_map Prod.fst).mpr hmono⟩
      have h := (apply_quotes_aux (a :: rest) [] a.1 (List.Pairwise.nil)
        (by simp) hch).2 (by simp)
      have hlast : ((a :: rest).map Prod.fst).getLastD a.1 =
          ((a :: rest).map Prod.fst).getLastD 0 := by
        rw [List.map_cons, List.getLastD_cons, List.getLastD_cons]
      rw [apply_quotes]
      exact ⟨h.1, by rw [← hlast]; exact h.2⟩

/-- Witness for C7 at a concrete 15-minute append sequence. -/
theorem c7_ring_bounds_witness :
    (apply_quotes ring_appends).length ≤ 600 ∧
    ∀ s ∈ apply_quotes ring_appends,
      (ring_appends.map Prod.fst).getLastD 0 - 600 ≤ s.ts :=
  c7_ring_bounds ring_appends (by simp [ring_appends])
    (by simp [ring_appends, List.chain'_cons])

theorem scan_base_eq_spec :
    ∀ (rev : List QuoteSample), rev ≠ [] → ∀ (cutoff : Int),
      scan_base rev cutoff =
        some (match rev.find? (fun s => decide (s.ts ≤ cutoff)) with
              | some s => s.px
              | none => (rev.getLastD ⟨0, 0⟩).px) := by
  intro rev
  induction rev with
  | nil => intro h; exact absurd rfl h
  | cons s rest ih =>
      intro _ cutoff
      by_cases h : s.ts ≤ cutoff
      · rw [scan_base, if_pos h, List.find?_cons_of_pos _ (by simpa using h)]
      · rw [scan_base, if_neg h, List.find?_cons_of_neg _ (by simpa using h)]
        cases hr : rest with
        | nil => simp [scan_base, List.getLastD]
        | cons b rest' =>
            rw [← hr, ih (by rw [hr]; simp) cutoff]
            cases hf : rest.find? (fun s => decide (s.ts ≤ cutoff)) with
            | some x => simp
            | none =>
                subst hr
                simp [List.getLastD_eq_getLast?, List.getLast?_cons_cons]

/-- C8: trailing return — 0 on the empty ring, and otherwise
`(last − base) / base` where `base` is the spec's baseline (the first
sample scanning backward with timestamp ≤ now − minutes, or the oldest
sample), with 0 returned when that baseline price is zero. -/
theorem c8_trailing_return :
    (∀ now minutes, _ret_from_ring [] now minutes = 0) ∧
    (∀ (ring : List QuoteSample), ring ≠ [] → ∀ now minutes,
      _ret_from_ring ring now minutes =
        (if baseline_spec ring (now - minutes * 60) = 0 then 0
         else ((ring.getLastD ⟨0, 0⟩).px - baseline_spec ring (now - minutes * 60)) /
           baseline_spec ring (now - minutes * 60))) := by
  constructor
  · intro now minutes; rfl
  · intro ring hne now minutes
    cases ring with
    | nil => exact absurd rfl hne
    | cons a rest =>
        have hrev : (a :: rest).reverse ≠ [] := by simp
        have hsc := scan_base_eq_spec ((a :: rest).reverse) hrev (now - minutes * 60)
        have hbase : baseline_spec (a :: rest) (now - minutes * 60) =
            (match (a :: rest).reverse.find? (fun s => decide (s.ts ≤ now - minutes * 60)) with
             | some s => s.px
             | none => ((a :: rest).reverse.getLastD ⟨0, 0⟩).px) := by
          rw [baseline_spec]
          cases hf : (a :: rest).reverse.find? (fun s => decide (s.ts ≤ now - minutes * 60)) with
          | some x => simp
          | none =>
              have : (a :: rest).reverse.getLastD ⟨0, 0⟩ = (a :: rest).headD ⟨0, 0⟩ := by
                rw [List.getLastD_eq_getLast?, List.getLast?_reverse]
                cases rest <;> simp
              simp [this]
        rw [_ret_from_ring]
        rw [hsc, ← hbase]

/-- Witness for C8 at a concrete two-sample ring. -/
theorem c8_trailing_return_witness :
    _ret_from_ring ring_two 1000 5 =
      (if baseline_spec ring_two (1000 - 5 * 60) = 0 then 0
       else ((ring_two.getLastD ⟨0, 0⟩).px - baseline_spec ring_two (1000 - 5 * 60)) /
         baseline_spec ring_two (1000 - 5 * 60)) :=
  c8_trailing_return.2 ring_two (by simp [ring_two]) 1000 5

/-! ### Reference merging -/

theorem merge_refs_go_length :
    ∀ (l : List Headline) (seen : List String) (out : List Ref), out.length ≤ 3 →
      (merge_refs_go l seen out).length =
        min 3 (out.length + (new_urls l seen).length) := by
  intro l
  induction l with
  | nil =>
      intro seen out h
      rw [merge_refs_go, new_urls]
      simp
      omega
  | cons h rest ih =>
      intro seen out hlen
      by_cases h3 : out.length ≥ 3
      · rw [merge_refs_go, if_pos h3]
        omega
      · by_cases hv : strip h.title = "" ∨ strip h.url = ""
        · rw [merge_refs_go, if_neg h3, if_pos hv, new_urls, valid_url, if_pos hv]
          exact ih seen out hlen
        · by_cases hm : strip h.url ∈ seen
          · rw [merge_refs_go, if_neg h3, if_neg hv, if_pos hm, new_urls,
              valid_url, if_neg hv]
            simp only [hm, if_pos]
            exact ih seen out hlen
          · rw [merge_refs_go, if_neg h3, if_neg hv, if_neg hm, new_urls,
              valid_url, if_neg hv]
            simp only [hm, if_neg, if_false]
            rw [ih (strip h.url :: seen) _ (by simp; omega)]
            simp
            omega

theorem mem_new_urls :
    ∀ (l : List Headline) (seen : List String) (u : String),
      u ∈ new_urls l seen ↔ (u ∈ l.filterMap valid_url ∧ u ∉ seen) := by
  intro l
  induction l with
  | nil => simp [new_urls]
  | cons h rest ih =>
      intro seen u
      cases hv : valid_url h with
      | none => simp [new_urls, hv, List.filterMap_cons, ih]
      | some v =>
          by_cases hm : v ∈ seen
          · rw [new_urls]
            simp only [hv, hm, if_pos, List.filterMap_cons]
            rw [ih seen u]
            constructor
            · rintro ⟨h1, h2⟩
              exact ⟨List.mem_cons_of_mem _ h1, h2⟩
            · rintro ⟨h1, h2⟩
              rcases List.mem_cons.mp h1 with h1 | h1
              · subst h1; exact absurd hm h2
              · exact ⟨h1, h2⟩
          · rw [new_urls]
            simp only [hv, hm, if_neg, if_false, List.filterMap_cons]
            by_cases huv : u = v
            · subst huv
              simp [ih, hm]
            · simp only [List.mem_cons, huv, false_or]
              rw [ih (v :: seen) u]
              simp [huv]

theorem new_urls_nodup : ∀ (l : List Headline) (seen : List String),
    (new_urls l seen).Nodup := by
  intro l
  induction l with
  | nil => intro seen; simp [new_urls]
  | cons h rest ih =>
      intro seen
      cases hv : valid_url h with
      | none => simp [new_urls, hv, ih]
      | some v =>
          by_cases hm : v ∈ seen
          · simp [new_urls, hv, hm, ih]
          · rw [new_urls]
            simp only [hv, hm, if_neg, if_false]
            rw [List.nodup_cons]
            refine ⟨?_, ih _⟩
            intro hmem
            have := (mem_new_urls rest (v :: seen) v).mp hmem
            exact this.2 (List.mem_cons_self _ _)

theorem new_urls_length_card (l : List Headline) :
    (new_urls l []).length = (l.filterMap valid_url).toFinset.card := by
  rw [← List.toFinset_card_of_nodup (new_urls_nodup l [])]
  congr 1
  ext u
  simp [List.mem_toFinset, mem_new_urls]

theorem merge_refs_length (fn yh : List Headline) :
    (_merge_refs fn yh).length =
      min 3 (((fn ++ yh).filterMap valid_url).toFinset.card) := by
  rw [_merge_refs, merge_refs_go_length _ _ [] (by simp), new_urls_length_card]
  simp

theorem padded_refs_length (fn yh : List Headline) :
    (padded_refs fn yh).length = 3 := by
  have h := merge_refs_length fn yh
  rw [padded_refs]
  simp only [List.length_append, List.length_map, List.length_replicate]
  omega

theorem count_some_padded (fn yh : List Headline) :
    count_some (padded_refs fn yh) = (_merge_refs fn yh).length := by
  rw [count_some, padded_refs, List.filterMap_append, List.filterMap_map]
  have h1 : List.filterMap (id ∘ some) (_merge_refs fn yh) = _merge_refs fn yh := by
    simp [Function.comp]
  have h2 : ∀ k : Nat, (List.replicate k (none : Option Ref)).filterMap id = [] := by
    intro k
    induction k with
    | zero => rfl
    | succ n ihn => simp [List.replicate_succ, List.filterMap_cons, ihn]
  rw [h1, h2]
  simp

/-! ### Aggregator mode characterizations -/

theorem build_features_for_non_live (env : BFEnv) (h : env.live = false) :
    build_features_for env =
      { payload := non_live_payload, cacheEntry := env.cached, ring := env.ring,
        providerCalls := [], cacheReads := 0, cacheWrites := 0 } := by
  rw [build_features_for, h]
  simp

theorem build_features_for_success (env : BFEnv) (qt : TiQuote) (cs : List Candle)
    (hl : env.live = true) (hm : env.cached = none)
    (hq : env.quoteTi = Except.ok qt) (hc : env.candlesRes = Except.ok cs)
    (hdz : div_zero_flag cs = false) :
    build_features_for env =
      { payload := success_payload env qt cs,
        cacheEntry := some (success_payload env qt cs),
        ring := _note_quote env.ring env.now (last_px_final qt cs env.quoteFh),
        providerCalls := calls_before_quote env ++ ["tiingo_candles"] ++
          (if last_px_candles qt cs ≤ 0 then ["finnhub_quote"] else []) ++
          ["finnhub_earnings"],
        cacheReads := 1, cacheWrites := 1 } := by
  rw [build_features_for, hl]
  simp only [if_pos, hm]
  rw [build_features_live, hq, hc]
  simp [hdz]

theorem build_features_for_quote_failure (env : BFEnv) (e : String)
    (hl : env.live = true) (hm : env.cached = none)
    (hq : env.quoteTi = Except.error e) :
    build_features_for env =
      { payload := failure_payload (some ("tiingo: " ++ e))
          (top_headline_of (env.fhRes.toOption.getD []) (env.yhRes.toOption.getD [])),
        cacheEntry := some (failure_payload (some ("tiingo: " ++ e))
          (top_headline_of (env.fhRes.toOption.getD []) (env.yhRes.toOption.getD []))),
        ring := env.ring, providerCalls := calls_before_quote env,
        cacheReads := 1, cacheWrites := 1 } := by
  rw [build_features_for, hl]
  simp only [if_pos, hm]
  rw [build_features_live, hq]

theorem build_features_for_candles_failure (env : BFEnv) (qt : TiQuote) (e : String)
    (hl : env.live = true) (hm : env.cached = none)
    (hq : env.quoteTi = Except.ok qt) (hc : env.candlesRes = Except.error e) :
    build_features_for env =
      { payload := failure_payload (some ("tiingo: " ++ e))
          (top_headline_of (env.fhRes.toOption.getD []) (env.yhRes.toOption.getD [])),
        cacheEntry := some (failure_payload (some ("tiingo: " ++ e))
          (top_headline_of (env.fhRes.toOption.getD []) (env.yhRes.toOption.getD []))),
        ring := env.ring,
        providerCalls := calls_before_quote env ++ ["tiingo_candles"],
        cacheReads := 1, cacheWrites := 1 } := by
  rw [build_features_for, hl]
  simp only [if_pos, hm]
  rw [build_features_live, hq, hc]

theorem build_features_for_divzero (env : BFEnv) (qt : TiQuote) (cs : List Candle)
    (hl : env.live = true) (hm : env.cached = none)
    (hq : env.quoteTi = Except.ok qt) (hc : env.candlesRes = Except.ok cs)
    (hdz : div_zero_flag cs = true) :
    build_features_for env =
      { payload := failure_payload (some "providers failed: ZeroDivisionError")
          (top_headline_of (env.fhRes.toOption.getD []) (env.yhRes.toOption.getD [])),
        cacheEntry := some (failure_payload
          (some "providers failed: ZeroDivisionError")
          (top_headline_of (env.fhRes.toOption.getD []) (env.yhRes.toOption.getD []))),
        ring := _note_quote env.ring env.now (last_px_final qt cs env.quoteFh),
        providerCalls := calls_before_quote env ++ ["tiingo_candles"] ++
          (if last_px_candles qt cs ≤ 0 then ["finnhub_quote"] else []),
        cacheReads := 1, cacheWrites := 1 } := by
  rw [build_features_for, hl]
  simp only [if_pos, hm]
  rw [build_features_live, hq, hc]
  simp [hdz]

/-- C1 (amended): when the live aggregation completes (providers responded,
no division error), the refs list has exactly 3 slots, padded with `None`,
and the number of non-empty slots is the number of distinct urls of
headlines carrying both a title and a url across both sources, capped at 3.
In non-live mode and on total failure, however, the payload's refs list is
the empty list — not 3 padded slots. -/
theorem c1_refs_slots :
    (∀ (env : BFEnv) (qt : TiQuote) (cs : List Candle),
      env.live = true → env.cached = none →
      env.quoteTi = Except.ok qt → env.candlesRes = Except.ok cs →
      div_zero_flag cs = false →
      (build_features_for env).payload.refs.length = 3 ∧
      count_some (build_features_for env).payload.refs =
        min 3 (((env.fhRes.toOption.getD [] ++ env.yhRes.toOption.getD []).filterMap
          valid_url).toFinset.card)) ∧
    (∀ env : BFEnv, env.live = false → (build_features_for env).payload.refs = []) ∧
    (∀ (env : BFEnv) (e : String), env.live = true → env.cached = none →
      env.quoteTi = Except.error e → (build_features_for env).payload.refs = []) := by
  refine ⟨?_, ?_, ?_⟩
  · intro env qt cs hl hm hq hc hdz
    rw [build_features_for_success env qt cs hl hm hq hc hdz]
    have hrefs : (success_payload env qt cs).refs =
        padded_refs (env.fhRes.toOption.getD []) (env.yhRes.toOption.getD []) := rfl
    rw [hrefs]
    exact ⟨padded_refs_length _ _,
      by rw [count_some_padded, merge_refs_length]⟩
  · intro env h
    rw [build_features_for_non_live env h]
    rfl
  · intro env e hl hm hq
    rw [build_features_for_quote_failure env e hl hm hq]
    rfl

/-- Witness for C1's amended statement at a concrete live environment with
one valid headline. -/
theorem c1_refs_slots_witness :
    (build_features_for env_live_ok).payload.refs.length = 3 ∧
    count_some (build_features_for env_live_ok).payload.refs =
      min 3 (((env_live_ok.fhRes.toOption.getD [] ++
        env_live_ok.yhRes.toOption.getD []).filterMap valid_url).toFinset.card) :=
  c1_refs_slots.1 env_live_ok ⟨some 10, some 10, some 11⟩ [] rfl rfl rfl rfl rfl

/-- C1 counterexample: in non-live mode the returned refs list is empty, so
it does not have 3 slots. -/
theorem c1_counterexample :
    (build_features_for env_non_live).payload.refs.length ≠ 3 := by decide

/-! ### mins_since_news -/

theorem foldl_max_le (now : Int) :
    ∀ (ts : List Int) (t : Int), t ≤ now → (∀ u ∈ ts, u ≤ now) →
      ts.foldl max t ≤ now := by
  intro ts
  induction ts with
  | nil => intro t h _; exact h
  | cons a tl ih =>
      intro t h hall
      rw [List.foldl_cons]
      exact ih (max t a) (max_le h (hall a (List.mem_cons_self _ _)))
        (fun u hu => hall u (List.mem_cons_of_mem _ hu))

theorem mins_since_news_le_240 (now : Int) (fh yh : List Headline) :
    mins_since_news_of now fh yh ≤ 240 := by
  rw [mins_since_news_of]
  exact min_le_right _ _

theorem mins_since_news_nonneg (now : Int) (fh yh : List Headline)
    (h : ∀ t ∈ news_pool fh yh, t ≤ now) :
    0 ≤ mins_since_news_of now fh yh := by
  rw [mins_since_news_of]
  cases hp : news_pool fh yh with
  | nil => norm_num
  | cons t ts =>
      refine le_min ?_ (by norm_num)
      have hle : ts.foldl max t ≤ now :=
        foldl_max_le now ts t (h t (by rw [hp]; exact List.mem_cons_self _ _))
          (fun u hu => h u (by rw [hp]; exact List.mem_cons_of_mem _ hu))
      exact Int.fdiv_nonneg (by omega) (by norm_num)

/-- C2 (amended): `mins_since_news` is 12 in non-live mode, never exceeds
240 in live mode on a cache miss (success or failure path; 9999 is the
pre-clamp sentinel, giving 240 when no headline timestamp is known), and is
non-negative on the live success path provided no headline carries a
timestamp later than now — with a future-dated headline the value can be
negative, since the code clamps only from above. -/
theorem c2_mins_since_news :
    (∀ env : BFEnv, env.live = false →
      (build_features_for env).payload.features.mins_since_news = 12) ∧
    (∀ env : BFEnv, env.live = true → env.cached = none →
      (build_features_for env).payload.features.mins_since_news ≤ 240) ∧
    (∀ (env : BFEnv) (qt : TiQuote) (cs : List Candle),
      env.live = true → env.cached = none →
      env.quoteTi = Except.ok qt → env.candlesRes = Except.ok cs →
      div_zero_flag cs = false →
      (∀ t ∈ news_pool (env.fhRes.toOption.getD []) (env.yhRes.toOption.getD []),
        t ≤ env.now) →
      0 ≤ (build_features_for env).payload.features.mins_since_news) ∧
    (∀ (env : BFEnv) (qt : TiQuote) (cs : List Candle),
      env.live = true → env.cached = none →
      env.quoteTi = Except.ok qt → env.candlesRes = Except.ok cs →
      div_zero_flag cs = false →
      news_pool (env.fhRes.toOption.getD []) (env.yhRes.toOption.getD []) = [] →
      (build_features_for env).payload.features.mins_since_news = 240) := by
  refine ⟨?_, ?_, ?_, ?_⟩
  · intro env h
    rw [build_features_for_non_live env h]
    rfl
  · intro env hl hm
    cases hq : env.quoteTi with
    | error e =>
        rw [build_features_for_quote_failure env e hl hm hq]
        show (12 : Int) ≤ 240
        norm_num
    | ok qt =>
        cases hc : env.candlesRes with
        | error e =>
            rw [build_features_for_candles_failure env qt e hl hm hq hc]
            show (12 : Int) ≤ 240
            norm_num
        | ok cs =>
            cases hdz : div_zero_flag cs with
            | true =>
                rw [build_features_for_divzero env qt cs hl hm hq hc hdz]
                show (12 : Int) ≤ 240
                norm_num
            | false =>
                rw [build_features_for_success env qt cs hl hm hq hc hdz]
                show mins_since_news_of env.now _ _ ≤ 240
                exact mins_since_news_le_240 _ _ _
  · intro env qt cs hl hm hq hc hdz hts
    rw [build_features_for_success env qt cs hl hm hq hc hdz]
    show 0 ≤ mins_since_news_of env.now _ _
    exact mins_since_news_nonneg _ _ _ hts
  · intro env qt cs hl hm hq hc hdz hp
    rw [build_features_for_success env qt cs hl hm hq hc hdz]
    show mins_since_news_of env.now _ _ = 240
    rw [mins_since_news_of, hp]
    rfl

/-- Witness for C2 at a concrete live environment with one past-dated
headline. -/
theorem c2_mins_since_news_witness :
    0 ≤ (build_features_for env_live_ok).payload.features.mins_since_news ∧
    (build_features_for env_live_ok).payload.features.mins_since_news ≤ 240 :=
  ⟨c2_mins_since_news.2.2.1 env_live_ok ⟨some 10, some 10, some 11⟩ []
      rfl rfl rfl rfl rfl (by decide),
   c2_mins_since_news.2.1 env_live_ok rfl rfl⟩

/-- C2 counterexample: with a single headline dated one hour in the future,
the live payload's `mins_since_news` is −60, outside [0, 240]. -/
theorem c2_counterexample :
    (build_features_for env_future_news).payload.features.mins_since_news = -60 ∧
    (build_features_for env_future_news).payload.features.mins_since_news < 0 :=
  ⟨rfl, by decide⟩

/-! ### Quote quality -/

/-- C4 (amended): on the live success path, quality is "estimated" exactly
when the spread was synthesized (bid/ask missing or inverted) — the bid and
ask are then the 8-basis-point band around last — and "real" exactly when
bid and ask were both observed non-zero with ask > bid AND a positive last
price was known at validation time (from the Tiingo quote or the candle
close).  Without such a positive last price, a live payload keeps quality
"unknown" even though it carries the observed spread; "unknown" is also the
quality of the non-live and total-failure payloads.  So "unknown" is not
confined to the fully synthetic payloads. -/
theorem c4_quote_quality :
    (∀ (env : BFEnv) (qt : TiQuote) (cs : List Candle),
      env.live = true → env.cached = none →
      env.quoteTi = Except.ok qt → env.candlesRes = Except.ok cs →
      div_zero_flag cs = false →
      (((build_features_for env).payload.quote.quality = "estimated" ↔
          need_synth qt = true) ∧
       ((build_features_for env).payload.quote.quality = "real" ↔
          (need_synth qt = false ∧ last_px_candles qt cs > 0)) ∧
       ((build_features_for env).payload.quote.quality = "unknown" ↔
          (need_synth qt = false ∧ last_px_candles qt cs ≤ 0)) ∧
       (need_synth qt = true →
          (build_features_for env).payload.quote.bid =
            some (last_px_final qt cs env.quoteFh -
              8 / 10000 * last_px_final qt cs env.quoteFh * (1 / 2)) ∧
          (build_features_for env).payload.quote.ask =
            some (last_px_final qt cs env.quoteFh +
              8 / 10000 * last_px_final qt cs env.quoteFh * (1 / 2))))) ∧
    (∀ env : BFEnv, env.live = false →
      (build_features_for env).payload.quote.quality = "unknown") ∧
    (∀ (env : BFEnv) (e : String), env.live = true → env.cached = none →
      env.quoteTi = Except.error e →
      (build_features_for env).payload.quote.quality = "unknown") := by
  refine ⟨?_, ?_, ?_⟩
  · intro env qt cs hl hm hq hc hdz
    have hquote : (build_features_for env).payload.quote =
        ⟨last_px_final qt cs env.quoteFh,
         (final_bid_ask_quality qt cs env.quoteFh).1,
         (final_bid_ask_quality qt cs env.quoteFh).2.1,
         (final_bid_ask_quality qt cs env.quoteFh).2.2⟩ := by
      rw [build_features_for_success env qt cs hl hm hq hc hdz]
      rfl
    rw [hquote]
    cases hsy : need_synth qt with
    | true =>
        rw [final_bid_ask_quality, if_pos hsy]
        refine ⟨by simp, ?_, ?_, fun _ => ⟨rfl, rfl⟩⟩
        · simp only [show ("estimated" = "real") = False by simp, hsy]
          simp
        · simp only [show ("estimated" = "unknown") = False by simp, hsy]
          simp
    | false =>
        rw [final_bid_ask_quality, if_neg (by rw [hsy]; exact Bool.false_ne_true)]
        cases hb : bid_disp0 qt with
        | none =>
            rw [need_synth, hb] at hsy
            simp at hsy
        | some b =>
            cases ha : ask_disp0 qt with
            | none =>
                rw [need_synth, hb, ha] at hsy
                simp at hsy
            | some a =>
                have hbs : (bid_disp0 qt).isSome := by rw [hb]; rfl
                have has : (ask_disp0 qt).isSome := by rw [ha]; rfl
                by_cases hpos : last_px_candles qt cs > 0
                · rw [quality0, if_pos ⟨hbs, has, hpos⟩]
                  refine ⟨by simp, by simp [hpos], ?_,
                    fun habs => absurd habs Bool.false_ne_true⟩
                  simp only [show ("real" = "unknown") = False by simp, false_iff,
                    not_and]
                  intro _
                  exact not_le.mpr hpos
                · rw [quality0, if_neg (fun hcon => hpos hcon.2.2)]
                  refine ⟨by simp, ?_, ?_,
                    fun habs => absurd habs Bool.false_ne_true⟩
                  · simp only [show ("unknown" = "real") = False by simp, false_iff,
                      not_and]
                    intro _
                    exact hpos
                  · simp only [show ("unknown" = "unknown") = True by simp, true_iff]
                    exact ⟨trivial, le_of_not_lt hpos⟩
  · intro env h
    rw [build_features_for_non_live env h]
    rfl
  · intro env e hl hm hq
    rw [build_features_for_quote_failure env e hl hm hq]
    rfl

/-- Witness for C4 at a concrete live environment with an observed valid
spread and a positive last price. -/
theorem c4_quote_quality_witness :
    ((build_features_for env_live_ok).payload.quote.quality = "estimated" ↔
        need_synth ⟨some 10, some 10, some 11⟩ = true) ∧
    ((build_features_for env_live_ok).payload.quote.quality = "real" ↔
        (need_synth ⟨some 10, some 10, some 11⟩ = false ∧
          last_px_candles ⟨some 10, some 10, some 11⟩ [] > 0)) ∧
    ((build_features_for env_live_ok).payload.quote.quality = "unknown" ↔
        (need_synth ⟨some 10, some 10, some 11⟩ = false ∧
          last_px_candles ⟨some 10, some 10, some 11⟩ [] ≤ 0)) ∧
    (need_synth ⟨some 10, some 10, some 11⟩ = true →
        (build_features_for env_live_ok).payload.quote.bid =
          some (last_px_final ⟨some 10, some 10, some 11⟩ [] env_live_ok.quoteFh -
            8 / 10000 * last_px_final ⟨some 10, some 10, some 11⟩ []
              env_live_ok.quoteFh * (1 / 2)) ∧
        (build_features_for env_live_ok).payload.quote.ask =
          some (last_px_final ⟨some 10, some 10, some 11⟩ [] env_live_ok.quoteFh +
            8 / 10000 * last_px_final ⟨some 10, some 10, some 11⟩ []
              env_live_ok.quoteFh * (1 / 2))) :=
  c4_quote_quality.1 env_live_ok ⟨some 10, some 10, some 11⟩ [] rfl rfl rfl rfl rfl

/-- C4 counterexample: a live (non-synthetic) payload carrying the observed
spread bid 10 / ask 11 nevertheless has quality "unknown", because no
positive last price was available when the spread was validated. -/
theorem c4_counterexample :
    (build_features_for env_no_last).payload.quote.quality = "unknown" ∧
    (build_features_for env_no_last).payload.quote.bid = some 10 ∧
    (build_features_for env_no_last).payload.quote.ask = some 11 ∧
    env_no_last.live = true ∧
    env_no_last.quoteTi = Except.ok ⟨none, some 10, some 11⟩ :=
  ⟨rfl, rfl, rfl, rfl, rfl⟩

/-! ### Non-live frame -/

/-- C9 (amended): in non-live mode the aggregator returns the fixed
synthetic payload, makes no provider call and performs no cache interaction
at all — neither a read nor a write: the cache and the quote ring are left
exactly as they were.  (The claimed cache write of the returned payload
does not happen.) -/
theorem c9_non_live_frame (env : BFEnv) (h : env.live = false) :
    build_features_for env =
      { payload := non_live_payload, cacheEntry := env.cached, ring := env.ring,
        providerCalls := [], cacheReads := 0, cacheWrites := 0 } :=
  build_features_for_non_live env h

/-- Witness for C9 at a concrete non-live environment. -/
theorem c9_non_live_frame_witness :
    build_features_for env_non_live =
      { payload := non_live_payload, cacheEntry := env_non_live.cached,
        ring := env_non_live.ring, providerCalls := [],
        cacheReads := 0, cacheWrites := 0 } :=
  c9_non_live_frame env_non_live rfl

/-- C9 counterexample: after a non-live call with an empty cache, no cache
entry for the ticker exists and no write was performed, contradicting the
claimed cache write of the returned payload. -/
theorem c9_counterexample :
    (build_features_for env_non_live).cacheWrites = 0 ∧
    (build_features_for env_non_live).cacheEntry = none :=
  ⟨rfl, rfl⟩

end Midas
